import Mathlib

/- Shallow embedding of src/FriendTracker.py (class SpotifyAnalyzer).

   SQLite tables are modelled as association lists keyed by strings (the
   primary-key column), the dynamically named per-listener tables as an
   association list from table name to the list of inserted rows, Python
   exceptions as the PyErr type, and Python floats (time.time) as exact
   rationals.  Python str.isalnum is modelled over the ASCII fragment via
   Char.isAlphanum. -/

namespace FriendTracker

/-- Python exceptions relevant to the embedded code: sqlite3.OperationalError,
sqlite3.IntegrityError, ValueError, and a catch-all for anything else. -/
inductive PyErr where
  | operational (msg : String)
  | integrity (msg : String)
  | valueError (msg : String)
  | otherExc (msg : String)
deriving DecidableEq

/-- Association-list lookup, first match wins (models a keyed SQLite row set). -/
def alookup {β : Type} : List (String × β) → String → Option β
  | [], _ => none
  | (k, v) :: rest, key => if k = key then some v else alookup rest key

/-- INSERT OR REPLACE semantics: replace the row carrying the given key, or
append a new row when the key is absent. -/
def aupsert {β : Type} : List (String × β) → String → β → List (String × β)
  | [], key, v => [(key, v)]
  | (k, w) :: rest, key, v =>
      if k = key then (key, v) :: rest else (k, w) :: aupsert rest key v

/-- Number of rows carrying the given key. -/
def countKey {β : Type} (l : List (String × β)) (k : String) : Nat :=
  (l.filter (fun p => p.1 == k)).length

/-- Row of the `users` table (uri is the key). -/
structure UserRow where
  name : String
  image_url : Option String
deriving DecidableEq

/-- Row of the `tracks` table (uri is the key). -/
structure TrackRow where
  name : String
  image_url : Option String
  album_uri : Option String
  album_name : Option String
  artist_uri : Option String
  artist_name : Option String
deriving DecidableEq

/-- Row of the `user_tables` stream registry (user_uri is the key). -/
structure RegEntry where
  table_name : String
  created_at : Int
deriving DecidableEq

/-- Row of a per-listener listening-activity table.  The synthetic
auto-increment id is the position in the list. -/
structure EventRow where
  timestamp : Int
  track_uri : String
  context_uri : Option String
  context_name : Option String
  context_index : Option Int
deriving DecidableEq

/-- The SQLite database.  A core table that is absent from sqlite_master is
`none`; the dynamically named per-listener tables are present exactly when
their name is a key of `streams`. -/
structure Db where
  users : Option (List (String × UserRow))
  tracks : Option (List (String × TrackRow))
  user_tables : Option (List (String × RegEntry))
  streams : List (String × List EventRow)
deriving DecidableEq

/-- init_database: CREATE TABLE IF NOT EXISTS for the three core tables;
existing tables (and their rows) are untouched, absent ones become empty. -/
def init_database (db : Db) : Db :=
  { users := some (db.users.getD [])
    tracks := some (db.tracks.getD [])
    user_tables := some (db.user_tables.getD [])
    streams := db.streams }

/-- One character of the sanitization step of get_user_table_name:
`c if c.isalnum() else '_'`.  Python's str.isalnum is Unicode-aware; this
concrete instance restricts it to the ASCII fragment (Char.isAlphanum),
which is exact for ASCII identifiers.  sanitizeCharWith below abstracts the
predicate for the facts that must hold of the full Unicode classifier, and
sanitizeChar is proved to be its ASCII instance. -/
def sanitizeChar (c : Char) : Char :=
  if c.isAlphanum then c else '_'

/-- The characters after the last occurrence of the separator: the value of
Python `s.split(sep)[-1]`. -/
def afterLastSep (sep : Char) (l : List Char) : List Char :=
  l.foldl (fun acc c => if c = sep then [] else acc ++ [c]) []

/-- Python `c in s` for a one-character needle. -/
def pyInStr (c : Char) (s : String) : Bool :=
  s.toList.contains c

/-- The table name built by get_user_table_name before its validation check:
`user_` + sanitized last ':'-component + `_listening_activity`. -/
def tableNameOf (user_uri : String) : String :=
  let username := afterLastSep ':' user_uri.toList
  String.mk ("user_".toList ++ username.map sanitizeChar ++ "_listening_activity".toList)

/-- The validation performed by get_user_table_name:
`table_name.replace('_', '').isalnum()` — drop underscores, then Python
isalnum (nonempty and all alphanumeric; isalnum restricted to ASCII here,
with tableNameCheckWith below abstracting the predicate — the check passes
for every predicate accepting the ASCII alphanumerics, so the restriction
does not affect its outcome). -/
def tableNameCheck (t : String) : Bool :=
  let stripped := t.toList.filter (fun c => !(c == '_'))
  !stripped.isEmpty && stripped.all Char.isAlphanum

/-- get_user_table_name: derive the table name, raise ValueError when the
validation check fails. -/
def get_user_table_name (user_uri : String) : Except PyErr String :=
  let table_name := tableNameOf user_uri
  if tableNameCheck table_name then Except.ok table_name
  else Except.error (PyErr.valueError "Invalid table name generated from URI")

theorem sanitize_filter_alnum (l : List Char) :
    ((l.map sanitizeChar).filter (fun c => !(c == '_'))).all Char.isAlphanum = true := by
  induction l with
  | nil => rfl
  | cons c rest ih =>
      by_cases h : c.isAlphanum = true
      · have hc : sanitizeChar c = c := if_pos h
        have hu : (c == '_') = false := by
          by_cases hx : c = '_'
          · subst hx; exact absurd h (by decide)
          · simpa using hx
        simp [List.filter_cons, hc, hu, h, ih]
      · have hc : sanitizeChar c = '_' := if_neg h
        simp [List.filter_cons, hc, ih]

theorem tableNameCheck_ok (user_uri : String) :
    tableNameCheck (tableNameOf user_uri) = true := by
  unfold tableNameCheck tableNameOf
  set username := afterLastSep ':' user_uri.toList with husr
  have hmk : (String.mk ("user_".toList ++ username.map sanitizeChar ++
      "_listening_activity".toList)).toList =
      "user_".toList ++ username.map sanitizeChar ++ "_listening_activity".toList := rfl
  rw [hmk]
  rw [List.filter_append, List.filter_append]
  have h1 : ("user_".toList.filter (fun c => !(c == '_'))) = ['u', 's', 'e', 'r'] := by decide
  rw [h1]
  simp only [Bool.and_eq_true, List.all_append]
  refine And.intro (by simp [List.isEmpty]) ?_
  refine And.intro (And.intro (by decide) ?_) (by decide)
  exact sanitize_filter_alnum username

theorem get_user_table_name_ok (user_uri : String) :
    get_user_table_name user_uri = Except.ok (tableNameOf user_uri) := by
  simp [get_user_table_name, tableNameCheck_ok]

/-- create_user_table: derive the table name; if no table of that name exists
in sqlite_master, create it (with its timestamp index) and INSERT OR REPLACE
the registry row in the same transaction; otherwise return the name without
touching anything.  The registry insert needs the user_tables table. -/
def create_user_table (now : Int) (user_uri : String) (db : Db) :
    Except PyErr String × Db :=
  match get_user_table_name user_uri with
  | Except.error e => (Except.error e, db)
  | Except.ok table_name =>
      if (alookup db.streams table_name).isSome then (Except.ok table_name, db)
      else
        match db.user_tables with
        | none => (Except.error (PyErr.operational "no such table: user_tables"), db)
        | some reg =>
            (Except.ok table_name,
             { db with
                 streams := db.streams ++ [(table_name, [])]
                 user_tables :=
                   some (aupsert reg user_uri { table_name := table_name, created_at := now }) })

/-- The "user" value of an activity payload; fields model the dict keys the
code reads.  A present-but-empty dict is the value with every field none. -/
structure RawUser where
  uri : Option String
  name : Option String
  imageUrl : Option String
  image_url : Option String
deriving DecidableEq

/-- An album or artist sub-dict of the "track" value. -/
structure RawPair where
  uri : Option String
  name : Option String
deriving DecidableEq

/-- The "context" sub-dict of the "track" value. -/
structure RawContext where
  uri : Option String
  name : Option String
  index : Option Int
deriving DecidableEq

/-- The "track" value of an activity payload. -/
structure RawTrack where
  uri : Option String
  name : Option String
  imageUrl : Option String
  image_url : Option String
  album : Option RawPair
  artist : Option RawPair
  context : Option RawContext
deriving DecidableEq

/-- A candidate activity payload (a Python dict); absent keys are none. -/
structure RawActivity where
  user : Option RawUser
  track : Option RawTrack
  timestamp : Option Int
deriving DecidableEq

/-- The empty dict returned by activity_data.get("user", {}). -/
def emptyRawUser : RawUser := { uri := none, name := none, imageUrl := none, image_url := none }

/-- The empty dict returned by activity_data.get("track", {}). -/
def emptyRawTrack : RawTrack :=
  { uri := none, name := none, imageUrl := none, image_url := none,
    album := none, artist := none, context := none }

/-- Python truthiness of the user dict: a dict is truthy iff nonempty
(modelled keys only). -/
def RawUser.truthy (u : RawUser) : Bool :=
  u.uri.isSome || u.name.isSome || u.imageUrl.isSome || u.image_url.isSome

/-- Python truthiness of the track dict. -/
def RawTrack.truthy (t : RawTrack) : Bool :=
  t.uri.isSome || t.name.isSome || t.imageUrl.isSome || t.image_url.isSome ||
    t.album.isSome || t.artist.isSome || t.context.isSome

/-- Python `a or b` on two optional strings, where None and "" are falsy. -/
def pyOrS : Option String → Option String → Option String
  | some s, b => if s = "" then b else some s
  | none, b => b

/-- The users row built from the "user" dict by store_activity. -/
def userRowOf (ud : RawUser) : UserRow :=
  { name := ud.name.getD "Unknown", image_url := pyOrS ud.imageUrl ud.image_url }

/-- The tracks row built from the "track" dict by store_activity. -/
def trackRowOf (td : RawTrack) : TrackRow :=
  { name := td.name.getD "Unknown"
    image_url := pyOrS td.imageUrl td.image_url
    album_uri := (td.album.getD { uri := none, name := none }).uri
    album_name := (td.album.getD { uri := none, name := none }).name
    artist_uri := (td.artist.getD { uri := none, name := none }).uri
    artist_name := (td.artist.getD { uri := none, name := none }).name }

/-- The listening-activity row appended by store_activity. -/
def eventRowOf (td : RawTrack) (ts : Int) : EventRow :=
  { timestamp := ts
    track_uri := td.uri.getD ""
    context_uri := (td.context.getD { uri := none, name := none, index := none }).uri
    context_name := (td.context.getD { uri := none, name := none, index := none }).name
    context_index := (td.context.getD { uri := none, name := none, index := none }).index }

/-- Outcome of a store_activity call: an early validation return (logged, not
raised), a committed store, or a raised Python exception. -/
inductive StoreOutcome where
  | invalid
  | stored
  | raised (e : PyErr)
deriving DecidableEq

/-- store_activity: validate the payload shape (empty user/track dict, or a
user uri that is empty or lacks ':', give an early non-raising return), then
get-or-create the per-listener table, upsert the users and tracks rows and
append the event, committing at the end.  A missing timestamp violates the
NOT NULL column and raises IntegrityError; on any raise the dimension
upserts executed before the failing statement were never committed
(conn.commit is not reached) and are modelled as not persisted, while the
table creation was already committed inside create_user_table. -/
def store_activity (now : Int) (activity_data : RawActivity) (db : Db) :
    StoreOutcome × Db :=
  let user_data := activity_data.user.getD emptyRawUser
  let track_data := activity_data.track.getD emptyRawTrack
  if !user_data.truthy || !track_data.truthy then (StoreOutcome.invalid, db)
  else
    let user_uri := user_data.uri.getD ""
    if user_uri = "" || !(pyInStr ':' user_uri) then (StoreOutcome.invalid, db)
    else
      match create_user_table now user_uri db with
      | (Except.error e, db1) => (StoreOutcome.raised e, db1)
      | (Except.ok table_name, db1) =>
          match db1.users, db1.tracks with
          | none, _ => (StoreOutcome.raised (PyErr.operational "no such table: users"), db1)
          | _, none => (StoreOutcome.raised (PyErr.operational "no such table: tracks"), db1)
          | some usersT, some tracksT =>
              match activity_data.timestamp with
              | none =>
                  (StoreOutcome.raised (PyErr.integrity "NOT NULL constraint failed"), db1)
              | some ts =>
                  let track_uri := track_data.uri.getD ""
                  let ev := eventRowOf track_data ts
                  (StoreOutcome.stored,
                   { db1 with
                       users := some (aupsert usersT user_uri (userRowOf user_data))
                       tracks := some (aupsert tracksT track_uri (trackRowOf track_data))
                       streams :=
                         aupsert db1.streams table_name
                           ((alookup db1.streams table_name).getD [] ++ [ev]) })

/-- Result row of get_user_activity. -/
structure HistoryRow where
  timestamp : Int
  track_name : String
  artist_name : Option String
  context_name : Option String
deriving DecidableEq

/-- ORDER BY timestamp DESC. -/
def sortTsDesc {α : Type} (key : α → Int) (l : List α) : List α :=
  l.insertionSort (fun a b => key b ≤ key a)

/-- get_user_activity: read the listener's table (raising the storage error
that pandas surfaces when the table does not exist), JOIN tracks, apply the
optional (Python-truthy) time bounds, ORDER BY timestamp DESC. -/
def get_user_activity (db : Db) (user_uri : String)
    (start_time end_time : Option Int) : Except PyErr (List HistoryRow) :=
  match get_user_table_name user_uri with
  | Except.error e => Except.error e
  | Except.ok table_name =>
      match alookup db.streams table_name, db.tracks with
      | none, _ => Except.error (PyErr.operational ("no such table: " ++ table_name))
      | _, none => Except.error (PyErr.operational "no such table: tracks")
      | some evs, some tracksT =>
          let rows := evs.filterMap (fun la =>
            (alookup tracksT la.track_uri).map (fun t =>
              ({ timestamp := la.timestamp, track_name := t.name,
                 artist_name := t.artist_name, context_name := la.context_name } : HistoryRow)))
          let rows := match start_time with
            | some st => if st == 0 then rows else rows.filter (fun r => st ≤ r.timestamp)
            | none => rows
          let rows := match end_time with
            | some et => if et == 0 then rows else rows.filter (fun r => r.timestamp ≤ et)
            | none => rows
          Except.ok (sortTsDesc (fun r => r.timestamp) rows)

/-- Result row of get_all_user_activities. -/
structure AllRow where
  timestamp : Int
  user_name : String
  track_name : String
  artist_name : Option String
  context_name : Option String
deriving DecidableEq

/-- get_all_user_activities: an empty registry short-circuits to an empty
DataFrame; otherwise a UNION ALL over every registered table (each part
joining the one users row and the tracks row), ORDER BY timestamp DESC. -/
def get_all_user_activities (db : Db) (start_time : Option Int) :
    Except PyErr (List AllRow) :=
  match db.user_tables with
  | none => Except.error (PyErr.operational "no such table: user_tables")
  | some reg =>
      if reg.isEmpty then Except.ok []
      else
        match db.users, db.tracks with
        | none, _ => Except.error (PyErr.operational "no such table: users")
        | _, none => Except.error (PyErr.operational "no such table: tracks")
        | some usersT, some tracksT =>
            match reg.mapM (fun p =>
              match alookup db.streams p.2.table_name with
              | none =>
                  Except.error (PyErr.operational ("no such table: " ++ p.2.table_name))
              | some evs =>
                  let evs := match start_time with
                    | some st => if st == 0 then evs else evs.filter (fun la => st ≤ la.timestamp)
                    | none => evs
                  Except.ok (evs.filterMap (fun la =>
                    (alookup usersT p.1).bind (fun u =>
                      (alookup tracksT la.track_uri).map (fun t =>
                        ({ timestamp := la.timestamp, user_name := u.name,
                           track_name := t.name, artist_name := t.artist_name,
                           context_name := la.context_name } : AllRow)))))) with
            | Except.error e => Except.error e
            | Except.ok parts => Except.ok (sortTsDesc (fun r => r.timestamp) parts.flatten)

/-- Result row of get_all_time_activity.  The strftime-derived fields are
modelled arithmetically from the epoch-second value; the calendar rendering
of `date` is abstracted to the epoch-day number. -/
structure AllTimeRow where
  timestamp : Int
  user_name : String
  track_name : String
  artist_name : Option String
  album_name : Option String
  context_name : Option String
  date : Int
  hour : Int
  day_of_week : Int
deriving DecidableEq

/-- get_all_time_activity: an empty registry short-circuits to an empty
DataFrame; otherwise a UNION ALL over every registered table with derived
date/hour/weekday fields, ORDER BY timestamp DESC. -/
def get_all_time_activity (db : Db) : Except PyErr (List AllTimeRow) :=
  match db.user_tables with
  | none => Except.error (PyErr.operational "no such table: user_tables")
  | some reg =>
      if reg.isEmpty then Except.ok []
      else
        match db.users, db.tracks with
        | none, _ => Except.error (PyErr.operational "no such table: users")
        | _, none => Except.error (PyErr.operational "no such table: tracks")
        | some usersT, some tracksT =>
            match reg.mapM (fun p =>
              match alookup db.streams p.2.table_name with
              | none =>
                  Except.error (PyErr.operational ("no such table: " ++ p.2.table_name))
              | some evs =>
                  Except.ok (evs.filterMap (fun la =>
                    (alookup usersT p.1).bind (fun u =>
                      (alookup tracksT la.track_uri).map (fun t =>
                        let sec := la.timestamp / 1000
                        ({ timestamp := la.timestamp, user_name := u.name,
                           track_name := t.name, artist_name := t.artist_name,
                           album_name := t.album_name, context_name := la.context_name,
                           date := sec / 86400, hour := sec % 86400 / 3600,
                           day_of_week := (sec / 86400 + 4) % 7 } : AllTimeRow)))))) with
            | Except.error e => Except.error e
            | Except.ok parts => Except.ok (sortTsDesc (fun r => r.timestamp) parts.flatten)

/-- A raw friend-activity record of the snapshot; `payload` stands for the
keys of the dict other than "timestamp". -/
structure FriendRecord where
  timestamp : Option Int
  payload : String
deriving DecidableEq

/-- The raw snapshot dict; `friends` is its "friends" key. -/
structure Snapshot where
  friends : Option (List FriendRecord)
deriving DecidableEq

/-- filter_active_friends: keep a friend iff
now - friend.get("timestamp", 0)/1000 <= threshold.  Python float arithmetic
is modelled as exact rational arithmetic. -/
def filter_active_friends (current_time : ℚ) (friend_activity : Snapshot)
    (active_threshold_seconds : ℚ) : List FriendRecord :=
  (friend_activity.friends.getD []).filter (fun friend =>
    decide (current_time - ((friend.timestamp.getD 0 : Int) : ℚ) / 1000 ≤
      active_threshold_seconds))

/-- Result of one attempt of an operation wrapped by with_db_retry: a return
value or a raised exception. -/
inductive PyOutcome (α : Type) where
  | ok (a : α)
  | raise (e : PyErr)
deriving DecidableEq

/-- The retry condition of with_db_retry: an sqlite3.OperationalError whose
text contains "database is locked". -/
def isLockedErr : PyErr → Bool
  | PyErr.operational msg => decide ("database is locked".toList <:+: msg.toList)
  | _ => false

/-- Observable trace of a with_db_retry invocation: final result, number of
attempts, the sleeps performed (seconds, in order), and the number of forced
connection closes. -/
structure RetryResult (α : Type) where
  result : PyOutcome α
  attempts : Nat
  sleeps : List Nat
  closes : Nat
deriving DecidableEq

/-- The retry loop of with_db_retry.  `op` gives the outcome of each attempt
(indexed from 0), `remaining` counts the attempts left.  On a locked error it
sleeps delay * 2 ^ attempt, closes the thread-local connection and retries;
any other exception propagates immediately; an exhausted loop re-raises the
last locked error (the Python `raise None` of an impossible zero-attempt
configuration is modelled as a TypeError). -/
def retryGo {α : Type} (op : Nat → PyOutcome α) (delay : Nat) :
    Nat → Nat → Option PyErr → List Nat → Nat → RetryResult α
  | attempt, 0, lastErr, sleeps, closes =>
      { result := PyOutcome.raise (lastErr.getD (PyErr.otherExc "TypeError"))
        attempts := attempt, sleeps := sleeps, closes := closes }
  | attempt, rem + 1, _lastErr, sleeps, closes =>
      match op attempt with
      | PyOutcome.ok a =>
          { result := PyOutcome.ok a, attempts := attempt + 1, sleeps := sleeps, closes := closes }
      | PyOutcome.raise e =>
          if isLockedErr e then
            retryGo op delay (attempt + 1) rem (some e)
              (sleeps ++ [delay * 2 ^ attempt]) (closes + 1)
          else
            { result := PyOutcome.raise e, attempts := attempt + 1
              sleeps := sleeps, closes := closes }

/-- with_db_retry (the decorator applied to an operation): run up to
max_attempts attempts starting at attempt 0.  The source defaults are
max_attempts = 3, delay = 1. -/
def with_db_retry {α : Type} (op : Nat → PyOutcome α) (max_attempts delay : Nat) :
    RetryResult α :=
  retryGo op delay 0 max_attempts none [] 0

/-- An element of the fetched activities list in run_collection_loop: a dict
payload or a value of any other type (handled by the isinstance check). -/
inductive LoopItem where
  | dict (a : RawActivity)
  | nondict (desc : String)
deriving DecidableEq

/-- The ingestion for-loop of one tick of run_collection_loop: non-dict items
are logged and skipped; a store_activity call that raises aborts the rest of
the batch, handing the exception to the tick-level handler. -/
def ingest_batch (now : Int) : List LoopItem → Db → Db × Option PyErr
  | [], db => (db, none)
  | LoopItem.nondict _ :: rest, db => ingest_batch now rest db
  | LoopItem.dict a :: rest, db =>
      match store_activity now a db with
      | (StoreOutcome.raised e, db1) => (db1, some e)
      | (_, db1) => ingest_batch now rest db1

/-- One tick of run_collection_loop: ingest the fetched activities; the
`except Exception` handler catches any raised error, logs it and falls
through to the sleep, so the tick function is total. -/
def collection_tick (now : Int) (activities : List LoopItem) (db : Db) : Db :=
  (ingest_batch now activities db).1

/-- run_collection_loop, truncated to a finite list of ticks (each tick's
fetched activities are given); the sleep between ticks is abstracted away. -/
def run_collection_loop (now : Int) (ticks : List (List LoopItem)) (db : Db) : Db :=
  ticks.foldl (fun d items => collection_tick now items d) db

/-- The per-registry-entry repair loop of verify_database_structure: for each
recorded (user_uri, table_name), if no table of that name exists, re-create
it via create_user_table; an unexpected storage error propagates. -/
def repair_user_tables (now : Int) : List (String × RegEntry) → Db → Except PyErr Db
  | [], db => Except.ok db
  | p :: rest, db =>
      if (alookup db.streams p.2.table_name).isSome then repair_user_tables now rest db
      else
        match create_user_table now p.1 db with
        | (Except.ok _, db1) => repair_user_tables now rest db1
        | (Except.error e, _) => Except.error e

/-- How many of the three core tables exist. -/
def coreTablesPresent (db : Db) : Nat :=
  (if db.users.isSome then 1 else 0) + (if db.tracks.isSome then 1 else 0) +
    (if db.user_tables.isSome then 1 else 0)

/-- verify_database_structure: reinitialize the baseline schema when any of
the three core tables is missing, then repair every registry entry whose
backing table is missing.  `inj` injects an unexpected sqlite3.Error raised
by the storage engine during verification; the except-clause logs it and
re-raises. -/
def verify_database_structure (now : Int) (inj : Option PyErr) (db : Db) :
    Except PyErr Db :=
  match inj with
  | some e => Except.error e
  | none =>
      let db1 := if coreTablesPresent db < 3 then init_database db else db
      match db1.user_tables with
      | none => Except.error (PyErr.operational "no such table: user_tables")
      | some reg => repair_user_tables now reg db1

/-- The keys of a table are pairwise distinct (the PRIMARY KEY invariant). -/
def keysNodup {β : Type} (l : List (String × β)) : Prop :=
  (l.map Prod.fst).Nodup

theorem aupsert_cons_self {β : Type} (a : String) (b v : β) (rest : List (String × β)) :
    aupsert ((a, b) :: rest) a v = (a, v) :: rest := by
  simp [aupsert]

theorem aupsert_cons_ne {β : Type} (a k : String) (b v : β) (rest : List (String × β))
    (h : ¬a = k) : aupsert ((a, b) :: rest) k v = (a, b) :: aupsert rest k v := by
  simp [aupsert, h]

theorem alookup_aupsert_self {β : Type} (l : List (String × β)) (k : String) (v : β) :
    alookup (aupsert l k v) k = some v := by
  induction l with
  | nil => simp [aupsert, alookup]
  | cons p rest ih =>
      obtain ⟨a, b⟩ := p
      by_cases h : a = k
      · simp [aupsert, h, alookup]
      · simp [aupsert, h, alookup, ih]

theorem alookup_aupsert_ne {β : Type} (l : List (String × β)) (k k' : String) (v : β)
    (h : k' ≠ k) : alookup (aupsert l k v) k' = alookup l k' := by
  induction l with
  | nil => simp [aupsert, alookup, Ne.symm h]
  | cons p rest ih =>
      obtain ⟨a, b⟩ := p
      by_cases hp : a = k
      · subst hp
        simp [aupsert, alookup, Ne.symm h]
      · by_cases hp' : a = k'
        · rw [aupsert_cons_ne a k b v rest hp]
          simp [alookup, hp']
        · rw [aupsert_cons_ne a k b v rest hp]
          simp [alookup, hp', ih]

theorem alookup_eq_none_of_not_mem {β : Type} (l : List (String × β)) (k : String)
    (h : k ∉ l.map Prod.fst) : alookup l k = none := by
  induction l with
  | nil => rfl
  | cons p rest ih =>
      obtain ⟨a, b⟩ := p
      simp only [List.map_cons, List.mem_cons] at h
      push_neg at h
      simp [alookup, Ne.symm h.1, ih h.2]

theorem alookup_mem {β : Type} {l : List (String × β)} {k : String} {v : β}
    (h : alookup l k = some v) : (k, v) ∈ l := by
  induction l with
  | nil => simp [alookup] at h
  | cons p rest ih =>
      obtain ⟨a, b⟩ := p
      by_cases hp : a = k
      · subst hp
        simp only [alookup, if_pos rfl] at h
        cases h
        exact List.mem_cons_self _ _
      · simp only [alookup, if_neg hp] at h
        exact List.mem_cons_of_mem _ (ih h)

theorem alookup_isSome_of_mem {β : Type} {l : List (String × β)} {k : String} {v : β}
    (h : (k, v) ∈ l) : (alookup l k).isSome = true := by
  induction l with
  | nil => simp at h
  | cons p rest ih =>
      obtain ⟨a, b⟩ := p
      rcases List.mem_cons.mp h with h1 | h2
      · cases h1
        simp [alookup]
      · by_cases hp : a = k
        · simp [alookup, hp]
        · simp [alookup, hp, ih h2]

theorem aupsert_keys_sub {β : Type} (l : List (String × β)) (k : String) (v : β) :
    (aupsert l k v).map Prod.fst ⊆ k :: l.map Prod.fst := by
  induction l with
  | nil => simp [aupsert]
  | cons p rest ih =>
      obtain ⟨a, b⟩ := p
      by_cases hp : a = k
      · subst hp
        simp only [aupsert, if_pos rfl, List.map_cons]
        intro x hx
        rcases List.mem_cons.mp hx with h1 | h2
        · simp [h1]
        · right; right; exact h2
      · rw [aupsert_cons_ne a k b v rest hp]
        simp only [List.map_cons]
        intro x hx
        rcases List.mem_cons.mp hx with h1 | h2
        · subst h1; exact List.mem_cons_of_mem _ (List.mem_cons_self _ _)
        · rcases List.mem_cons.mp (ih h2) with h3 | h4
          · subst h3; exact List.mem_cons_self _ _
          · exact List.mem_cons_of_mem _ (List.mem_cons_of_mem _ h4)

theorem keysNodup_aupsert {β : Type} (l : List (String × β)) (k : String) (v : β)
    (h : keysNodup l) : keysNodup (aupsert l k v) := by
  induction l with
  | nil => simp [keysNodup, aupsert]
  | cons p rest ih =>
      obtain ⟨a, b⟩ := p
      unfold keysNodup at h ⊢
      simp only [List.map_cons, List.nodup_cons] at h
      by_cases hp : a = k
      · subst hp
        rw [aupsert_cons_self]
        simp only [List.map_cons, List.nodup_cons]
        exact h
      · rw [aupsert_cons_ne a k b v rest hp]
        simp only [List.map_cons, List.nodup_cons]
        refine And.intro ?_ (ih h.2)
        intro hmem
        rcases List.mem_cons.mp (aupsert_keys_sub rest k v hmem) with h1 | h2
        · exact hp h1
        · exact h.1 h2

theorem countKey_cons_self {β : Type} (a : String) (b : β) (rest : List (String × β)) :
    countKey ((a, b) :: rest) a = countKey rest a + 1 := by
  simp [countKey, List.filter_cons]

theorem countKey_cons_ne {β : Type} (a k : String) (b : β) (rest : List (String × β))
    (h : a ≠ k) : countKey ((a, b) :: rest) k = countKey rest k := by
  have hb : (a == k) = false := by simpa using h
  simp [countKey, List.filter_cons, hb]

theorem countKey_eq_zero_of_not_mem {β : Type} (l : List (String × β)) (k : String)
    (h : k ∉ l.map Prod.fst) : countKey l k = 0 := by
  induction l with
  | nil => rfl
  | cons p rest ih =>
      obtain ⟨a, b⟩ := p
      simp only [List.map_cons, List.mem_cons] at h
      push_neg at h
      rw [countKey_cons_ne a k b rest (Ne.symm h.1)]
      exact ih h.2

theorem countKey_aupsert_self {β : Type} (l : List (String × β)) (k : String) (v : β)
    (h : keysNodup l) : countKey (aupsert l k v) k = 1 := by
  induction l with
  | nil => simp [aupsert, countKey, List.filter_cons]
  | cons p rest ih =>
      obtain ⟨a, b⟩ := p
      unfold keysNodup at h
      simp only [List.map_cons, List.nodup_cons] at h
      by_cases hp : a = k
      · subst hp
        rw [aupsert_cons_self, countKey_cons_self]
        rw [countKey_eq_zero_of_not_mem rest a h.1]
      · rw [aupsert_cons_ne a k b v rest hp, countKey_cons_ne a k b _ hp]
        exact ih h.2

theorem alookup_append_of_some {β : Type} (l m : List (String × β)) (k : String) (v : β)
    (h : alookup l k = some v) : alookup (l ++ m) k = some v := by
  induction l with
  | nil => simp [alookup] at h
  | cons p rest ih =>
      obtain ⟨a, b⟩ := p
      by_cases hp : a = k
      · simp only [alookup, if_pos hp] at h
        simp [alookup, hp, h]
      · simp only [alookup, if_neg hp] at h
        simp [alookup, hp, ih h]

theorem alookup_append_singleton_self {β : Type} (l : List (String × β)) (k : String) (v : β)
    (h : alookup l k = none) : alookup (l ++ [(k, v)]) k = some v := by
  induction l with
  | nil => simp [alookup]
  | cons p rest ih =>
      obtain ⟨a, b⟩ := p
      by_cases hp : a = k
      · simp [alookup, hp] at h
      · simp only [alookup, if_neg hp] at h
        simp [alookup, hp, ih h]

theorem alookup_append_singleton_ne {β : Type} (l : List (String × β)) (k k' : String) (v : β)
    (h : k' ≠ k) : alookup (l ++ [(k, v)]) k' = alookup l k' := by
  induction l with
  | nil => simp [alookup, Ne.symm h]
  | cons p rest ih =>
      obtain ⟨a, b⟩ := p
      by_cases hp : a = k'
      · simp [alookup, hp]
      · simp [alookup, hp, ih]

theorem create_user_table_hit (now : Int) (u : String) (db : Db) (evs : List EventRow)
    (hs : alookup db.streams (tableNameOf u) = some evs) :
    create_user_table now u db = (Except.ok (tableNameOf u), db) := by
  unfold create_user_table
  rw [get_user_table_name_ok]
  simp [hs]

theorem create_user_table_miss (now : Int) (u : String) (db : Db)
    (reg : List (String × RegEntry))
    (hs : alookup db.streams (tableNameOf u) = none) (hr : db.user_tables = some reg) :
    create_user_table now u db = (Except.ok (tableNameOf u),
      { db with
          streams := db.streams ++ [(tableNameOf u, [])]
          user_tables :=
            some (aupsert reg u { table_name := tableNameOf u, created_at := now }) }) := by
  unfold create_user_table
  rw [get_user_table_name_ok]
  simp [hs, hr]

theorem store_activity_valid (now : Int) (a : RawActivity) (db : Db)
    (usersT : List (String × UserRow)) (tracksT : List (String × TrackRow))
    (reg : List (String × RegEntry)) (ud : RawUser) (td : RawTrack) (ts : Int)
    (hu : db.users = some usersT) (ht : db.tracks = some tracksT)
    (hr : db.user_tables = some reg)
    (hud : a.user = some ud) (htd : a.track = some td)
    (hudt : ud.truthy = true) (htdt : td.truthy = true)
    (huri : ¬ud.uri.getD "" = "") (hcol : pyInStr ':' (ud.uri.getD "") = true)
    (hts : a.timestamp = some ts) :
    (store_activity now a db).1 = StoreOutcome.stored ∧
    (store_activity now a db).2.users =
      some (aupsert usersT (ud.uri.getD "") (userRowOf ud)) ∧
    (store_activity now a db).2.tracks =
      some (aupsert tracksT (td.uri.getD "") (trackRowOf td)) ∧
    (∃ reg2, (store_activity now a db).2.user_tables = some reg2) ∧
    alookup (store_activity now a db).2.streams (tableNameOf (ud.uri.getD "")) =
      some ((alookup db.streams (tableNameOf (ud.uri.getD ""))).getD [] ++ [eventRowOf td ts]) ∧
    (∀ k, ¬k = tableNameOf (ud.uri.getD "") →
      alookup (store_activity now a db).2.streams k = alookup db.streams k) := by
  have hc1 : (!ud.truthy || !td.truthy) = false := by rw [hudt, htdt]; rfl
  have hc2 : ((ud.uri.getD "" = "") || !(pyInStr ':' (ud.uri.getD "")) : Bool) = false := by
    simp [huri, hcol]
  rcases hcase : alookup db.streams (tableNameOf (ud.uri.getD "")) with _ | evs
  · have hct := create_user_table_miss now (ud.uri.getD "") db reg hcase hr
    have hres : store_activity now a db = (StoreOutcome.stored,
        { users := some (aupsert usersT (ud.uri.getD "") (userRowOf ud))
          tracks := some (aupsert tracksT (td.uri.getD "") (trackRowOf td))
          user_tables :=
            some (aupsert reg (ud.uri.getD "")
              { table_name := tableNameOf (ud.uri.getD ""), created_at := now })
          streams :=
            aupsert (db.streams ++ [(tableNameOf (ud.uri.getD ""), [])])
              (tableNameOf (ud.uri.getD ""))
              ((alookup (db.streams ++ [(tableNameOf (ud.uri.getD ""), [])])
                  (tableNameOf (ud.uri.getD ""))).getD [] ++ [eventRowOf td ts]) }) := by
      unfold store_activity
      rw [hud, htd]
      simp only [Option.getD_some]
      rw [hc1]
      simp only [Bool.false_eq_true, if_false]
      rw [hc2]
      simp only [Bool.false_eq_true, if_false]
      rw [hct]
      simp only [hu, ht, hts]
    rw [hres]
    have hemp : alookup (db.streams ++ [(tableNameOf (ud.uri.getD ""), [])])
        (tableNameOf (ud.uri.getD "")) = some [] :=
      alookup_append_singleton_self db.streams _ _ hcase
    refine ⟨rfl, rfl, rfl, ⟨_, rfl⟩, ?_, ?_⟩
    · show alookup (aupsert _ _ _) _ = _
      rw [alookup_aupsert_self, hemp]
      rfl
    · intro k hk
      show alookup (aupsert _ _ _) k = _
      rw [alookup_aupsert_ne _ _ _ _ hk]
      exact alookup_append_singleton_ne db.streams _ k _ hk
  · have hct := create_user_table_hit now (ud.uri.getD "") db evs hcase
    have hres : store_activity now a db = (StoreOutcome.stored,
        { users := some (aupsert usersT (ud.uri.getD "") (userRowOf ud))
          tracks := some (aupsert tracksT (td.uri.getD "") (trackRowOf td))
          user_tables := db.user_tables
          streams :=
            aupsert db.streams (tableNameOf (ud.uri.getD ""))
              ((alookup db.streams (tableNameOf (ud.uri.getD ""))).getD [] ++
                [eventRowOf td ts]) }) := by
      unfold store_activity
      rw [hud, htd]
      simp only [Option.getD_some]
      rw [hc1]
      simp only [Bool.false_eq_true, if_false]
      rw [hc2]
      simp only [Bool.false_eq_true, if_false]
      rw [hct]
      simp only [hu, ht, hts]
    rw [hres]
    refine ⟨rfl, rfl, rfl, ⟨reg, hr⟩, ?_, ?_⟩
    · show alookup (aupsert _ _ _) _ = _
      rw [alookup_aupsert_self, hcase]
    · intro k hk
      show alookup (aupsert _ _ _) k = _
      exact alookup_aupsert_ne _ _ _ _ hk

/-- The shape validation store_activity actually performs: both dicts truthy,
and a user uri that is nonempty and contains ':'.  The track uri is never
examined. -/
def passes_validation (a : RawActivity) : Bool :=
  !(!(a.user.getD emptyRawUser).truthy || !(a.track.getD emptyRawTrack).truthy) &&
    !(decide ((a.user.getD emptyRawUser).uri.getD "" = "") ||
      !(pyInStr ':' ((a.user.getD emptyRawUser).uri.getD "")))

theorem store_activity_reject1 (now : Int) (a : RawActivity) (db : Db)
    (h : (!(a.user.getD emptyRawUser).truthy || !(a.track.getD emptyRawTrack).truthy) = true) :
    store_activity now a db = (StoreOutcome.invalid, db) := by
  simp [store_activity, h]

theorem store_activity_reject2 (now : Int) (a : RawActivity) (db : Db)
    (h1 : (!(a.user.getD emptyRawUser).truthy || !(a.track.getD emptyRawTrack).truthy) = false)
    (h2 : (decide ((a.user.getD emptyRawUser).uri.getD "" = "") ||
      !(pyInStr ':' ((a.user.getD emptyRawUser).uri.getD ""))) = true) :
    store_activity now a db = (StoreOutcome.invalid, db) := by
  simp [store_activity, h1, h2]

theorem store_activity_not_invalid (now : Int) (a : RawActivity) (db : Db)
    (h1 : (!(a.user.getD emptyRawUser).truthy || !(a.track.getD emptyRawTrack).truthy) = false)
    (h2 : (decide ((a.user.getD emptyRawUser).uri.getD "" = "") ||
      !(pyInStr ':' ((a.user.getD emptyRawUser).uri.getD ""))) = false) :
    ¬(store_activity now a db).1 = StoreOutcome.invalid := by
  cases hct : create_user_table now ((a.user.getD emptyRawUser).uri.getD "") db with
  | mk r db1 =>
      cases r with
      | error e => simp [store_activity, h1, h2, hct]
      | ok tn =>
          cases hu1 : db1.users with
          | none => simp [store_activity, h1, h2, hct, hu1]
          | some usersT =>
              cases ht1 : db1.tracks with
              | none => simp [store_activity, h1, h2, hct, hu1, ht1]
              | some tracksT =>
                  cases hts : a.timestamp with
                  | none => simp [store_activity, h1, h2, hct, hu1, ht1, hts]
                  | some ts => simp [store_activity, h1, h2, hct, hu1, ht1, hts]

/-- A freshly initialized empty database (init_database on a new file). -/
def db_init : Db :=
  init_database { users := none, tracks := none, user_tables := none, streams := [] }

/-- A candidate event whose track dict is nonempty but carries no "uri" key:
the stored track identifier is the empty string. -/
def activity_no_track_uri : RawActivity :=
  { user := some { uri := some "spotify:user:alice", name := some "Alice",
                   imageUrl := none, image_url := none }
    track := some { uri := none, name := some "Song A", imageUrl := none, image_url := none,
                    album := none, artist := none, context := none }
    timestamp := some 1700000000000 }

/-- C1 counterexample: store_activity accepts and persists a candidate event
whose track identifier is empty (the claim says such an event must be
rejected) — the code never validates the track uri. -/
theorem claim1_counterexample :
    (store_activity 5 activity_no_track_uri db_init).1 = StoreOutcome.stored ∧
    alookup ((store_activity 5 activity_no_track_uri db_init).2.tracks.getD []) "" =
      some { name := "Song A", image_url := none, album_uri := none, album_name := none,
             artist_uri := none, artist_name := none } ∧
    alookup (store_activity 5 activity_no_track_uri db_init).2.streams
        (tableNameOf "spotify:user:alice") =
      some [{ timestamp := 1700000000000, track_uri := "", context_uri := none,
              context_name := none, context_index := none }] := by
  refine ⟨rfl, rfl, rfl⟩

/-- C1 (amended): store_activity accepts a candidate event only if the user
dict and track dict are both nonempty and the listener identifier is nonempty
and contains ':'; the track identifier is never validated.  On any validation
failure the call returns non-fatally (outcome invalid, nothing raised) and
performs no mutation of the store. -/
theorem claim1_amended_validation (now : Int) (a : RawActivity) (db : Db) :
    ((store_activity now a db).1 = StoreOutcome.invalid ↔ passes_validation a = false) ∧
    ((store_activity now a db).1 = StoreOutcome.invalid →
      (store_activity now a db).2 = db) := by
  by_cases h1 : (!(a.user.getD emptyRawUser).truthy ||
      !(a.track.getD emptyRawTrack).truthy) = true
  · have hres := store_activity_reject1 now a db h1
    rw [hres]
    simp [passes_validation, h1]
  · have h1f : (!(a.user.getD emptyRawUser).truthy ||
        !(a.track.getD emptyRawTrack).truthy) = false := by
      simpa using h1
    by_cases h2 : (decide ((a.user.getD emptyRawUser).uri.getD "" = "") ||
        !(pyInStr ':' ((a.user.getD emptyRawUser).uri.getD ""))) = true
    · have hres := store_activity_reject2 now a db h1f h2
      rw [hres]
      simp [passes_validation, h2]
    · have h2f : (decide ((a.user.getD emptyRawUser).uri.getD "" = "") ||
          !(pyInStr ':' ((a.user.getD emptyRawUser).uri.getD ""))) = false := by
        simpa using h2
      have hni := store_activity_not_invalid now a db h1f h2f
      refine ⟨⟨fun hinv => absurd hinv hni, fun hp => ?_⟩,
        fun hinv => absurd hinv hni⟩
      exfalso
      rw [passes_validation, h1f, h2f] at hp
      simp at hp

/-- A candidate event whose listener identifier lacks the ':' separator. -/
def activity_bad_uri : RawActivity :=
  { user := some { uri := some "alice", name := some "Alice",
                   imageUrl := none, image_url := none }
    track := some { uri := some "spotify:track:1", name := some "Song A",
                    imageUrl := none, image_url := none,
                    album := none, artist := none, context := none }
    timestamp := some 1700000000000 }

/-- Witness for C1: the validation theorem applied at a concrete rejected
event — the call returns the non-fatal invalid outcome and leaves the store
untouched. -/
theorem claim1_witness :
    (store_activity 5 activity_bad_uri db_init).1 = StoreOutcome.invalid ∧
    (store_activity 5 activity_bad_uri db_init).2 = db_init := by
  have h := claim1_amended_validation 5 activity_bad_uri db_init
  have hinv : (store_activity 5 activity_bad_uri db_init).1 = StoreOutcome.invalid :=
    h.1.mpr (by rfl)
  exact ⟨hinv, h.2 hinv⟩

/-- Parametric sanitization step.  Python str.isalnum is Unicode-aware and
its full classification table is not reproduced here, so the derivation is
also stated over an arbitrary alphanumeric predicate `isalnum`; every fact
proved about it assumes only properties true of Python's classifier (it
accepts the ASCII alphanumerics, and on ASCII code points it coincides with
[A-Za-z0-9]).  The concrete sanitizeChar above is the ASCII instance. -/
def sanitizeCharWith (isalnum : Char → Bool) (c : Char) : Char :=
  if isalnum c then c else '_'

/-- Parametric form of tableNameOf over the alphanumeric predicate. -/
def tableNameOfWith (isalnum : Char → Bool) (user_uri : String) : String :=
  let username := afterLastSep ':' user_uri.toList
  String.mk ("user_".toList ++ username.map (sanitizeCharWith isalnum) ++
    "_listening_activity".toList)

/-- Parametric form of the replace('_','').isalnum() validation check. -/
def tableNameCheckWith (isalnum : Char → Bool) (t : String) : Bool :=
  let stripped := t.toList.filter (fun c => !(c == '_'))
  !stripped.isEmpty && stripped.all isalnum

/-- Parametric form of get_user_table_name. -/
def get_user_table_nameWith (isalnum : Char → Bool) (user_uri : String) :
    Except PyErr String :=
  let table_name := tableNameOfWith isalnum user_uri
  if tableNameCheckWith isalnum table_name then Except.ok table_name
  else Except.error (PyErr.valueError "Invalid table name generated from URI")

theorem sanitizeChar_eq_with : sanitizeChar = sanitizeCharWith Char.isAlphanum := rfl

theorem tableNameOf_eq_with : tableNameOf = tableNameOfWith Char.isAlphanum := rfl

theorem get_user_table_name_eq_with :
    get_user_table_name = get_user_table_nameWith Char.isAlphanum := rfl

/-- Python str.isalnum evaluated on the characters this file's Unicode
example uses: the ASCII alphanumerics together with 'ü' (U+00FC), which
Python classifies as alphanumeric.  Like Python's classifier it extends the
ASCII alphanumerics and agrees with [A-Za-z0-9] on ASCII code points. -/
def pyIsAlnumU (c : Char) : Bool :=
  c.isAlphanum || (c == 'ü')

/-- C6 counterexample: two failures of the claim.  First, for a listener
identifier whose local component is empty the derivation succeeds with
"user__listening_activity" instead of erroring.  Second, the sanitization
keeps every character Python classifies as alphanumeric, not only
[A-Za-z0-9]: under the Python-faithful predicate (which accepts 'ü') the
identifier "spotify:user:müzik" derives "user_müzik_listening_activity",
whose character 'ü' lies outside [A-Za-z0-9_]. -/
theorem claim6_counterexample :
    get_user_table_name "spotify:user:" = Except.ok "user__listening_activity" ∧
    tableNameOfWith pyIsAlnumU "spotify:user:müzik" = "user_müzik_listening_activity" ∧
    (tableNameOfWith pyIsAlnumU "spotify:user:müzik").toList.all
      (fun c => c.isAlphanum || (c == '_')) = false := by
  refine ⟨rfl, rfl, rfl⟩

theorem sanitizeCharWith_mem (f : Char → Bool) (c : Char) :
    (f (sanitizeCharWith f c) || (sanitizeCharWith f c == '_')) = true := by
  by_cases h : f c = true
  · rw [sanitizeCharWith, if_pos h, h]
    rfl
  · rw [sanitizeCharWith, if_neg h]
    simp

theorem sanitizeWith_filter_all (f : Char → Bool) (l : List Char) :
    ((l.map (sanitizeCharWith f)).filter (fun c => !(c == '_'))).all f = true := by
  induction l with
  | nil => rfl
  | cons c rest ih =>
      by_cases h : f c = true
      · have hc : sanitizeCharWith f c = c := if_pos h
        by_cases hu : (c == '_') = true
        · simp [List.filter_cons, hc, hu, ih]
        · have hu' : (c == '_') = false := by
            cases hx : (c == '_')
            · rfl
            · exact absurd hx hu
          simp [List.filter_cons, hc, hu', h, ih]
      · have hc : sanitizeCharWith f c = '_' := if_neg h
        simp [List.filter_cons, hc, ih]

theorem all_f_of_all_alnum (f : Char → Bool)
    (hext : ∀ c, c.isAlphanum = true → f c = true)
    (l : List Char) (h : l.all Char.isAlphanum = true) : l.all f = true := by
  rw [List.all_eq_true] at h ⊢
  intro c hc
  exact hext c (h c hc)

theorem all_class_lift (f : Char → Bool)
    (hext : ∀ c, c.isAlphanum = true → f c = true) (l : List Char)
    (h : l.all (fun c => c.isAlphanum || (c == '_')) = true) :
    l.all (fun c => f c || (c == '_')) = true := by
  rw [List.all_eq_true] at h ⊢
  intro c hc
  have h2 : c.isAlphanum = true ∨ (c == '_') = true := by simpa using h c hc
  rcases h2 with h1 | h1
  · simp [hext c h1]
  · simp [h1]

theorem tableNameCheckWith_ok (f : Char → Bool)
    (hext : ∀ c, c.isAlphanum = true → f c = true) (user_uri : String) :
    tableNameCheckWith f (tableNameOfWith f user_uri) = true := by
  unfold tableNameCheckWith tableNameOfWith
  set username := afterLastSep ':' user_uri.toList with husr
  have hmk : (String.mk ("user_".toList ++ username.map (sanitizeCharWith f) ++
      "_listening_activity".toList)).toList =
      "user_".toList ++ username.map (sanitizeCharWith f) ++
        "_listening_activity".toList := rfl
  rw [hmk]
  rw [List.filter_append, List.filter_append]
  have h1 : ("user_".toList.filter (fun c => !(c == '_'))) = ['u', 's', 'e', 'r'] := by decide
  rw [h1]
  simp only [Bool.and_eq_true, List.all_append]
  refine And.intro (by simp [List.isEmpty]) ?_
  refine And.intro (And.intro ?_ (sanitizeWith_filter_all f username)) ?_
  · exact all_f_of_all_alnum f hext _ (by decide)
  · exact all_f_of_all_alnum f hext _ (by decide)

theorem get_user_table_nameWith_ok (f : Char → Bool)
    (hext : ∀ c, c.isAlphanum = true → f c = true) (user_uri : String) :
    get_user_table_nameWith f user_uri = Except.ok (tableNameOfWith f user_uri) := by
  simp [get_user_table_nameWith, tableNameCheckWith_ok f hext user_uri]

theorem foldl_sep_subset (sep : Char) :
    ∀ (l acc : List Char) (x : Char),
    x ∈ l.foldl (fun acc c => if c = sep then [] else acc ++ [c]) acc →
      x ∈ acc ∨ x ∈ l := by
  intro l
  induction l with
  | nil =>
      intro acc x hx
      exact Or.inl hx
  | cons c rest ih =>
      intro acc x hx
      rcases ih (if c = sep then [] else acc ++ [c]) x hx with h1 | h1
      · by_cases hc : c = sep
        · rw [if_pos hc] at h1
          simp at h1
        · rw [if_neg hc] at h1
          rcases List.mem_append.mp h1 with h2 | h2
          · exact Or.inl h2
          · right
            simp at h2
            subst h2
            exact List.mem_cons_self _ _
      · right
        exact List.mem_cons_of_mem _ h1

theorem afterLastSep_subset (sep : Char) (l : List Char) (x : Char)
    (h : x ∈ afterLastSep sep l) : x ∈ l := by
  rcases foldl_sep_subset sep l [] x h with h1 | h1
  · simp at h1
  · exact h1

/-- C6 (amended): the stream-handle derivation extracts the local component
after the last ':', replaces every character that is not alphanumeric in
Python's Unicode sense with '_' and wraps it as
user_<local>_listening_activity.  It never errors — an empty or
purely-separator local component yields user__listening_activity, because
the validation check strips underscores and the fixed prefix and suffix
already make the stripped name nonempty and alphanumeric.  Every character
of the derived name is alphanumeric in the program's sense or '_' (not
necessarily in [A-Za-z0-9_]: non-ASCII alphanumerics are kept); for an
all-ASCII identifier the derived name does lie in [A-Za-z0-9_].  Stated for
every alphanumeric predicate that, like Python's str.isalnum, accepts the
ASCII alphanumerics (and, for the ASCII part, coincides with [A-Za-z0-9]
on ASCII code points); the concrete get_user_table_name is the ASCII
instance. -/
theorem claim6_amended_sanitization (isalnum : Char → Bool)
    (hext : ∀ c, c.isAlphanum = true → isalnum c = true) (user_uri : String) :
    get_user_table_name user_uri = Except.ok (tableNameOf user_uri) ∧
    get_user_table_nameWith isalnum user_uri =
      Except.ok (tableNameOfWith isalnum user_uri) ∧
    (tableNameOfWith isalnum user_uri).toList.all
      (fun c => isalnum c || (c == '_')) = true ∧
    ((∀ c : Char, c.toNat < 128 → isalnum c = c.isAlphanum) →
      (∀ c ∈ user_uri.toList, c.toNat < 128) →
      (tableNameOfWith isalnum user_uri).toList.all
        (fun c => c.isAlphanum || (c == '_')) = true) := by
  refine ⟨get_user_table_name_ok user_uri, get_user_table_nameWith_ok isalnum hext user_uri,
    ?_, ?_⟩
  · show (String.mk ("user_".toList ++
        (afterLastSep ':' user_uri.toList).map (sanitizeCharWith isalnum) ++
        "_listening_activity".toList)).toList.all _ = true
    rw [show (String.mk ("user_".toList ++
        (afterLastSep ':' user_uri.toList).map (sanitizeCharWith isalnum) ++
        "_listening_activity".toList)).toList =
        "user_".toList ++ (afterLastSep ':' user_uri.toList).map (sanitizeCharWith isalnum) ++
          "_listening_activity".toList from rfl]
    rw [List.all_append, List.all_append]
    simp only [Bool.and_eq_true]
    refine ⟨⟨all_class_lift isalnum hext _ (by decide), ?_⟩,
      all_class_lift isalnum hext _ (by decide)⟩
    rw [List.all_map, List.all_eq_true]
    intro c hc
    exact sanitizeCharWith_mem isalnum c
  · intro hagree hchars
    show (String.mk ("user_".toList ++
        (afterLastSep ':' user_uri.toList).map (sanitizeCharWith isalnum) ++
        "_listening_activity".toList)).toList.all _ = true
    rw [show (String.mk ("user_".toList ++
        (afterLastSep ':' user_uri.toList).map (sanitizeCharWith isalnum) ++
        "_listening_activity".toList)).toList =
        "user_".toList ++ (afterLastSep ':' user_uri.toList).map (sanitizeCharWith isalnum) ++
          "_listening_activity".toList from rfl]
    rw [List.all_append, List.all_append]
    simp only [Bool.and_eq_true]
    refine ⟨⟨by decide, ?_⟩, by decide⟩
    rw [List.all_map, List.all_eq_true]
    intro c0 hc0
    have hmem : c0 ∈ user_uri.toList := afterLastSep_subset ':' user_uri.toList c0 hc0
    have hf : isalnum c0 = c0.isAlphanum := hagree c0 (hchars c0 hmem)
    by_cases ha : c0.isAlphanum = true
    · have hfc : isalnum c0 = true := by rw [hf]; exact ha
      have hs : sanitizeCharWith isalnum c0 = c0 := if_pos hfc
      simp only [Function.comp_apply, hs]
      rw [ha]
      rfl
    · have hfc : isalnum c0 = false := by
        rw [hf]
        cases hx : c0.isAlphanum
        · rfl
        · exact absurd hx ha
      have hs : sanitizeCharWith isalnum c0 = '_' := by
        rw [sanitizeCharWith, hfc]
        rfl
      simp only [Function.comp_apply, hs]
      rfl

/-- Witness for C6: the amended theorem applied to the Python-faithful
predicate pyIsAlnumU and two concrete identifiers — the Unicode identifier
derives without error with every character alphanumeric-or-underscore, and
the all-ASCII identifier stays within [A-Za-z0-9_]. -/
theorem claim6_witness :
    get_user_table_nameWith pyIsAlnumU "spotify:user:müzik" =
      Except.ok (tableNameOfWith pyIsAlnumU "spotify:user:müzik") ∧
    (tableNameOfWith pyIsAlnumU "spotify:user:müzik").toList.all
      (fun c => pyIsAlnumU c || (c == '_')) = true ∧
    (tableNameOfWith pyIsAlnumU "spotify:user:alice").toList.all
      (fun c => c.isAlphanum || (c == '_')) = true := by
  have hext : ∀ c : Char, c.isAlphanum = true → pyIsAlnumU c = true := by
    intro c hc
    show (c.isAlphanum || (c == 'ü')) = true
    rw [hc]
    rfl
  have hagree : ∀ c : Char, c.toNat < 128 → pyIsAlnumU c = c.isAlphanum := by
    intro c hc
    show (c.isAlphanum || (c == 'ü')) = c.isAlphanum
    have hne : (c == 'ü') = false := by
      by_cases he : c = 'ü'
      · subst he
        exact absurd hc (by decide)
      · simpa using he
    rw [hne, Bool.or_false]
  have h1 := claim6_amended_sanitization pyIsAlnumU hext "spotify:user:müzik"
  have h2 := claim6_amended_sanitization pyIsAlnumU hext "spotify:user:alice"
  exact ⟨h1.2.1, h1.2.2.1, h2.2.2.2 hagree (by decide)⟩

/-- C10: when the backing stream table exists but the registry has no entry
for the listener, create_user_table returns the derived handle and leaves the
database completely unchanged — the registry gap is never repaired, so the
listener stays invisible to registry-driven queries. -/
theorem claim10_registry_gap (now : Int) (u : String) (db : Db) (evs : List EventRow)
    (hs : alookup db.streams (tableNameOf u) = some evs)
    (hmiss : alookup (db.user_tables.getD []) u = none) :
    create_user_table now u db = (Except.ok (tableNameOf u), db) ∧
    alookup ((create_user_table now u db).2.user_tables.getD []) u = none := by
  have h := create_user_table_hit now u db evs hs
  refine ⟨h, ?_⟩
  rw [h]
  exact hmiss

/-- A database holding a stream table for bob but no registry entry. -/
def db_gap : Db :=
  { users := some [], tracks := some [], user_tables := some [],
    streams := [(tableNameOf "spotify:user:bob", [])] }

/-- Witness for C10 at a concrete inconsistent database. -/
theorem claim10_witness :
    create_user_table 7 "spotify:user:bob" db_gap =
      (Except.ok (tableNameOf "spotify:user:bob"), db_gap) ∧
    alookup ((create_user_table 7 "spotify:user:bob" db_gap).2.user_tables.getD [])
      "spotify:user:bob" = none :=
  claim10_registry_gap 7 "spotify:user:bob" db_gap [] rfl rfl

/-- C3: create_user_table is idempotent: the first call returns the derived
handle and a second call returns the same handle while changing nothing;
when a well-formed registry entry already exists (its recorded handle is the
derived name and its backing table exists) the recorded handle is returned
with no mutation at all; and the registry keeps at most one entry per
listener identifier. -/
theorem claim3_idempotent (now1 now2 : Int) (u : String) (db : Db)
    (reg : List (String × RegEntry)) (hr : db.user_tables = some reg) :
    ((create_user_table now1 u db).1 = Except.ok (tableNameOf u) ∧
     create_user_table now2 u (create_user_table now1 u db).2 =
       (Except.ok (tableNameOf u), (create_user_table now1 u db).2)) ∧
    (∀ e : RegEntry, alookup reg u = some e → e.table_name = tableNameOf u →
      (alookup db.streams e.table_name).isSome = true →
      create_user_table now1 u db = (Except.ok e.table_name, db)) ∧
    (keysNodup reg → ∀ reg2, (create_user_table now1 u db).2.user_tables = some reg2 →
      keysNodup reg2) := by
  rcases hcase : alookup db.streams (tableNameOf u) with _ | evs
  · have hct := create_user_table_miss now1 u db reg hcase hr
    have hemp : alookup (db.streams ++ [(tableNameOf u, [])]) (tableNameOf u) = some [] :=
      alookup_append_singleton_self db.streams _ _ hcase
    refine ⟨⟨by rw [hct], ?_⟩, ?_, ?_⟩
    · rw [hct]
      exact create_user_table_hit now2 u _ [] hemp
    · intro e he hwf hsome
      rw [hwf, hcase] at hsome
      simp at hsome
    · intro hnd reg2 hreg2
      rw [hct] at hreg2
      simp only at hreg2
      cases hreg2
      exact keysNodup_aupsert reg u _ hnd
  · have hct := create_user_table_hit now1 u db evs hcase
    refine ⟨⟨by rw [hct], ?_⟩, ?_, ?_⟩
    · rw [hct]
      exact create_user_table_hit now2 u db evs hcase
    · intro e he hwf hsome
      rw [hwf]
      exact create_user_table_hit now1 u db evs hcase
    · intro hnd reg2 hreg2
      rw [hct] at hreg2
      simp only at hreg2
      rw [hr] at hreg2
      cases hreg2
      exact hnd

/-- A database holding a well-formed registry entry and stream for carol. -/
def db_reg : Db :=
  { users := some [], tracks := some [],
    user_tables := some [("spotify:user:carol",
      { table_name := tableNameOf "spotify:user:carol", created_at := 3 })],
    streams := [(tableNameOf "spotify:user:carol", [])] }

/-- Witness for C3 at a concrete database: an existing entry's recorded
handle is returned without mutation, and a repeated call is a no-op. -/
theorem claim3_witness :
    create_user_table 9 "spotify:user:carol" db_reg =
      (Except.ok (tableNameOf "spotify:user:carol"), db_reg) ∧
    create_user_table 9 "spotify:user:carol" (create_user_table 9 "spotify:user:carol" db_reg).2 =
      (Except.ok (tableNameOf "spotify:user:carol"),
        (create_user_table 9 "spotify:user:carol" db_reg).2) :=
  ⟨(claim3_idempotent 9 9 "spotify:user:carol" db_reg
      [("spotify:user:carol",
        { table_name := tableNameOf "spotify:user:carol", created_at := 3 })] rfl).2.1
      { table_name := tableNameOf "spotify:user:carol", created_at := 3 } rfl rfl rfl,
   (claim3_idempotent 9 9 "spotify:user:carol" db_reg
      [("spotify:user:carol",
        { table_name := tableNameOf "spotify:user:carol", created_at := 3 })] rfl).1.2⟩

/-- C4: ingesting two valid candidate events that carry the same listener
identifier and the same track identifier produces exactly one users row
(holding the second event's attributes, last-write-wins) and exactly one
tracks row, and appends exactly two entries to that listener's stream while
every other stream and every pre-existing entry of that stream is left
untouched. -/
theorem claim4_upsert_append (now1 now2 : Int) (a1 a2 : RawActivity) (db : Db)
    (usersT : List (String × UserRow)) (tracksT : List (String × TrackRow))
    (reg : List (String × RegEntry)) (ud1 td1 ud2 td2) (ts1 ts2 : Int) (u t : String)
    (hu : db.users = some usersT) (ht : db.tracks = some tracksT)
    (hr : db.user_tables = some reg)
    (hnu : keysNodup usersT) (hnt : keysNodup tracksT)
    (hud1 : a1.user = some ud1) (htd1 : a1.track = some td1)
    (hud2 : a2.user = some ud2) (htd2 : a2.track = some td2)
    (hudt1 : ud1.truthy = true) (htdt1 : td1.truthy = true)
    (hudt2 : ud2.truthy = true) (htdt2 : td2.truthy = true)
    (hu1 : ud1.uri.getD "" = u) (hu2 : ud2.uri.getD "" = u)
    (hne : ¬u = "") (hcol : pyInStr ':' u = true)
    (ht1 : td1.uri.getD "" = t) (ht2 : td2.uri.getD "" = t)
    (hts1 : a1.timestamp = some ts1) (hts2 : a2.timestamp = some ts2) :
    (store_activity now1 a1 db).1 = StoreOutcome.stored ∧
    (store_activity now2 a2 (store_activity now1 a1 db).2).1 = StoreOutcome.stored ∧
    countKey ((store_activity now2 a2 (store_activity now1 a1 db).2).2.users.getD []) u = 1 ∧
    alookup ((store_activity now2 a2 (store_activity now1 a1 db).2).2.users.getD []) u =
      some (userRowOf ud2) ∧
    countKey ((store_activity now2 a2 (store_activity now1 a1 db).2).2.tracks.getD []) t = 1 ∧
    alookup ((store_activity now2 a2 (store_activity now1 a1 db).2).2.tracks.getD []) t =
      some (trackRowOf td2) ∧
    alookup (store_activity now2 a2 (store_activity now1 a1 db).2).2.streams (tableNameOf u) =
      some ((alookup db.streams (tableNameOf u)).getD [] ++
        [eventRowOf td1 ts1, eventRowOf td2 ts2]) ∧
    (∀ k, ¬k = tableNameOf u →
      alookup (store_activity now2 a2 (store_activity now1 a1 db).2).2.streams k =
        alookup db.streams k) := by
  subst hu1 ht1
  obtain ⟨ho1, hu1', ht1', ⟨reg2, hreg2⟩, hst1, hother1⟩ :=
    store_activity_valid now1 a1 db usersT tracksT reg ud1 td1 ts1
      hu ht hr hud1 htd1 hudt1 htdt1 hne hcol hts1
  have hne2 : ¬ud2.uri.getD "" = "" := by rw [hu2]; exact hne
  have hcol2 : pyInStr ':' (ud2.uri.getD "") = true := by rw [hu2]; exact hcol
  obtain ⟨ho2, hu2', ht2', _, hst2, hother2⟩ :=
    store_activity_valid now2 a2 (store_activity now1 a1 db).2
      (aupsert usersT (ud1.uri.getD "") (userRowOf ud1))
      (aupsert tracksT (td1.uri.getD "") (trackRowOf td1))
      reg2 ud2 td2 ts2 hu1' ht1' hreg2 hud2 htd2 hudt2 htdt2 hne2 hcol2 hts2
  rw [hu2] at hu2' hst2
  rw [ht2] at ht2'
  refine ⟨ho1, ho2, ?_, ?_, ?_, ?_, ?_, ?_⟩
  · rw [hu2', Option.getD_some]
    exact countKey_aupsert_self _ _ _ (keysNodup_aupsert usersT _ _ hnu)
  · rw [hu2', Option.getD_some]
    exact alookup_aupsert_self _ _ _
  · rw [ht2', Option.getD_some]
    exact countKey_aupsert_self _ _ _ (keysNodup_aupsert tracksT _ _ hnt)
  · rw [ht2', Option.getD_some]
    exact alookup_aupsert_self _ _ _
  · rw [hst2, hst1]
    simp [List.append_assoc]
  · intro k hk
    rw [hother2 k (by rw [hu2]; exact hk), hother1 k hk]

/-- First sighting of erin playing track 42. -/
def user_erin1 : RawUser :=
  { uri := some "spotify:user:erin", name := some "Erin", imageUrl := none, image_url := none }

/-- Second sighting of erin (updated display name). -/
def user_erin2 : RawUser :=
  { uri := some "spotify:user:erin", name := some "Erin Q", imageUrl := none, image_url := none }

/-- Track 42 as first sighted. -/
def track_42a : RawTrack :=
  { uri := some "spotify:track:42", name := some "Song A", imageUrl := none, image_url := none,
    album := none, artist := none, context := none }

/-- Track 42 as sighted the second time. -/
def track_42b : RawTrack :=
  { uri := some "spotify:track:42", name := some "Song A (remaster)", imageUrl := none,
    image_url := none, album := none, artist := none, context := none }

/-- First candidate event for the C4 witness. -/
def a_c4_1 : RawActivity :=
  { user := some user_erin1, track := some track_42a, timestamp := some 1000 }

/-- Second candidate event for the C4 witness. -/
def a_c4_2 : RawActivity :=
  { user := some user_erin2, track := some track_42b, timestamp := some 2000 }

/-- Witness for C4 at two concrete events with the same listener and track. -/
theorem claim4_witness :
    (store_activity 1 a_c4_1 db_init).1 = StoreOutcome.stored ∧
    (store_activity 2 a_c4_2 (store_activity 1 a_c4_1 db_init).2).1 = StoreOutcome.stored ∧
    countKey ((store_activity 2 a_c4_2 (store_activity 1 a_c4_1 db_init).2).2.users.getD [])
      "spotify:user:erin" = 1 ∧
    countKey ((store_activity 2 a_c4_2 (store_activity 1 a_c4_1 db_init).2).2.tracks.getD [])
      "spotify:track:42" = 1 ∧
    alookup (store_activity 2 a_c4_2 (store_activity 1 a_c4_1 db_init).2).2.streams
        (tableNameOf "spotify:user:erin") =
      some [eventRowOf track_42a 1000, eventRowOf track_42b 2000] := by
  have h := claim4_upsert_append 1 2 a_c4_1 a_c4_2 db_init [] [] []
    user_erin1 track_42a user_erin2 track_42b 1000 2000
    "spotify:user:erin" "spotify:track:42"
    rfl rfl rfl (by simp [keysNodup]) (by simp [keysNodup])
    rfl rfl rfl rfl rfl rfl rfl rfl rfl rfl (by decide) rfl rfl rfl rfl rfl
  refine ⟨h.1, h.2.1, h.2.2.1, h.2.2.2.2.1, ?_⟩
  have hst := h.2.2.2.2.2.2.1
  simpa [db_init, init_database, alookup] using hst

/-- C5: filter_active_friends selects a record iff
now - timestamp/1000 <= 300 (the default recency window), treats a missing
timestamp as zero (hence excluded whenever now exceeds the window),
preserves input order (the output is a sublist of the input), and at time T
admits a record with timestamp (T-200)*1000 while rejecting one with
timestamp (T-400)*1000. -/
theorem claim5_filter (now : ℚ) (snap : Snapshot) (hnow : 300 < now) :
    (∀ f : FriendRecord, f ∈ filter_active_friends now snap 300 ↔
      f ∈ snap.friends.getD [] ∧
        now - ((f.timestamp.getD 0 : Int) : ℚ) / 1000 ≤ 300) ∧
    (filter_active_friends now snap 300).Sublist (snap.friends.getD []) ∧
    (∀ f : FriendRecord, f.timestamp = none → f ∉ filter_active_friends now snap 300) ∧
    (∀ (T : Int) (p q : String),
      filter_active_friends (T : ℚ)
        { friends := some [{ timestamp := some ((T - 200) * 1000), payload := p },
                           { timestamp := some ((T - 400) * 1000), payload := q }] } 300 =
      [{ timestamp := some ((T - 200) * 1000), payload := p }]) := by
  have h200 : ∀ T : Int, ((T : ℚ)) - (((T - 200) * 1000 : Int) : ℚ) / 1000 ≤ 300 := by
    intro T
    push_cast
    ring_nf
    norm_num
  have h400 : ∀ T : Int, ¬(((T : ℚ)) - (((T - 400) * 1000 : Int) : ℚ) / 1000 ≤ 300) := by
    intro T
    push_cast
    ring_nf
    norm_num
  refine ⟨?_, ?_, ?_, ?_⟩
  · intro f
    unfold filter_active_friends
    rw [List.mem_filter]
    simp only [decide_eq_true_eq]
  · exact List.filter_sublist _
  · intro f hf hmem
    unfold filter_active_friends at hmem
    rw [List.mem_filter] at hmem
    have := of_decide_eq_true hmem.2
    rw [hf] at this
    simp only [Option.getD_none, Int.cast_zero, zero_div, sub_zero] at this
    linarith
  · intro T p q
    unfold filter_active_friends
    simp only [Option.getD_some, List.filter_cons, List.filter_nil,
      decide_eq_true_eq, h200 T, h400 T, if_true, if_false]

/-- The concrete snapshot of the C5 witness. -/
def snap5 : Snapshot :=
  { friends := some [{ timestamp := some 900000, payload := "f1" },
                     { timestamp := none, payload := "f2" }] }

/-- Witness for C5 at time 1000 with window 300: a 100-second-old record is
admitted and a record without a timestamp is excluded. -/
theorem claim5_witness :
    (300 : ℚ) < 1000 ∧
    ({ timestamp := some 900000, payload := "f1" } : FriendRecord) ∈
      filter_active_friends 1000 snap5 300 ∧
    ({ timestamp := none, payload := "f2" } : FriendRecord) ∉
      filter_active_friends 1000 snap5 300 := by
  have h := claim5_filter 1000 snap5 (by norm_num)
  refine ⟨by norm_num, ?_, h.2.2.1 { timestamp := none, payload := "f2" } rfl⟩
  refine (h.1 _).mpr ⟨by simp [snap5], by norm_num⟩

theorem retryGo_ok {α : Type} (op : Nat → PyOutcome α) (d attempt rem : Nat)
    (lastErr : Option PyErr) (sleeps : List Nat) (closes : Nat) (a : α)
    (h : op attempt = PyOutcome.ok a) :
    retryGo op d attempt (rem + 1) lastErr sleeps closes =
      { result := PyOutcome.ok a, attempts := attempt + 1, sleeps := sleeps, closes := closes } := by
  simp [retryGo, h]

theorem retryGo_raise_locked {α : Type} (op : Nat → PyOutcome α) (d attempt rem : Nat)
    (lastErr : Option PyErr) (sleeps : List Nat) (closes : Nat) (e : PyErr)
    (h : op attempt = PyOutcome.raise e) (hl : isLockedErr e = true) :
    retryGo op d attempt (rem + 1) lastErr sleeps closes =
      retryGo op d (attempt + 1) rem (some e) (sleeps ++ [d * 2 ^ attempt]) (closes + 1) := by
  simp [retryGo, h, hl]

theorem retryGo_raise_other {α : Type} (op : Nat → PyOutcome α) (d attempt rem : Nat)
    (lastErr : Option PyErr) (sleeps : List Nat) (closes : Nat) (e : PyErr)
    (h : op attempt = PyOutcome.raise e) (hl : isLockedErr e = false) :
    retryGo op d attempt (rem + 1) lastErr sleeps closes =
      { result := PyOutcome.raise e, attempts := attempt + 1, sleeps := sleeps, closes := closes } := by
  simp [retryGo, h, hl]

/-- C2: with_db_retry (3 attempts, base delay d) sleeps d * 2 ^ attempt after
each lock-contention failure and closes the thread-local connection before
retrying; any non-contention exception propagates immediately on the first
attempt without retrying; contention on the first N attempts followed by
success gives exactly N + 1 total attempts with sleeps d*2^0 .. d*2^(N-1);
and contention on all 3 attempts re-raises the last contention error. -/
theorem claim2_retry {α : Type} (op : Nat → PyOutcome α) (d : Nat) :
    (∀ e, isLockedErr e = false → op 0 = PyOutcome.raise e →
      with_db_retry op 3 d =
        { result := PyOutcome.raise e, attempts := 1, sleeps := [], closes := 0 }) ∧
    (∀ (N : Nat) (a : α) (errs : Nat → PyErr), N < 3 →
      (∀ i, i < N → op i = PyOutcome.raise (errs i) ∧ isLockedErr (errs i) = true) →
      op N = PyOutcome.ok a →
      with_db_retry op 3 d =
        { result := PyOutcome.ok a, attempts := N + 1,
          sleeps := (List.range N).map (fun i => d * 2 ^ i), closes := N }) ∧
    (∀ errs : Nat → PyErr,
      (∀ i, i < 3 → op i = PyOutcome.raise (errs i) ∧ isLockedErr (errs i) = true) →
      with_db_retry op 3 d =
        { result := PyOutcome.raise (errs 2), attempts := 3,
          sleeps := [d * 2 ^ 0, d * 2 ^ 1, d * 2 ^ 2], closes := 3 }) := by
  refine ⟨?_, ?_, ?_⟩
  · intro e hl h0
    show retryGo op d 0 (2 + 1) none [] 0 = _
    rw [retryGo_raise_other op d 0 2 none [] 0 e h0 hl]
  · intro N a errs hN hbusy hok
    interval_cases N
    · show retryGo op d 0 (2 + 1) none [] 0 = _
      rw [retryGo_ok op d 0 2 none [] 0 a hok]
      simp
    · have h0 := hbusy 0 (by norm_num)
      show retryGo op d 0 (2 + 1) none [] 0 = _
      rw [retryGo_raise_locked op d 0 2 none [] 0 (errs 0) h0.1 h0.2]
      rw [show (2 : Nat) = 1 + 1 from rfl,
        retryGo_ok op d 1 1 (some (errs 0)) ([] ++ [d * 2 ^ 0]) 1 a hok]
      simp [List.range_succ]
    · have h0 := hbusy 0 (by norm_num)
      have h1 := hbusy 1 (by norm_num)
      show retryGo op d 0 (2 + 1) none [] 0 = _
      rw [retryGo_raise_locked op d 0 2 none [] 0 (errs 0) h0.1 h0.2]
      rw [show (2 : Nat) = 1 + 1 from rfl,
        retryGo_raise_locked op d 1 1 (some (errs 0)) ([] ++ [d * 2 ^ 0]) 1 (errs 1) h1.1 h1.2]
      rw [show (1 : Nat) = 0 + 1 from rfl,
        retryGo_ok op d 2 0 (some (errs 1)) ([] ++ [d * 2 ^ 0] ++ [d * 2 ^ 1]) 2 a hok]
      simp [List.range_succ]
  · intro errs hbusy
    have h0 := hbusy 0 (by norm_num)
    have h1 := hbusy 1 (by norm_num)
    have h2 := hbusy 2 (by norm_num)
    show retryGo op d 0 (2 + 1) none [] 0 = _
    rw [retryGo_raise_locked op d 0 2 none [] 0 (errs 0) h0.1 h0.2]
    rw [show (2 : Nat) = 1 + 1 from rfl,
      retryGo_raise_locked op d 1 1 (some (errs 0)) ([] ++ [d * 2 ^ 0]) 1 (errs 1) h1.1 h1.2]
    rw [show (1 : Nat) = 0 + 1 from rfl,
      retryGo_raise_locked op d 2 0 (some (errs 1)) ([] ++ [d * 2 ^ 0] ++ [d * 2 ^ 1]) 2
        (errs 2) h2.1 h2.2]
    simp [retryGo]

/-- The contention scenario of the C2 witness: the first two attempts hit a
locked database, the third succeeds. -/
def op_c2 : Nat → PyOutcome Nat :=
  fun i => if i < 2 then PyOutcome.raise (PyErr.operational "database is locked")
           else PyOutcome.ok 42

/-- Witness for C2: two simulated contention failures followed by success
give exactly 3 attempts, sleeps of 1s and 2s and two forced reconnects. -/
theorem claim2_witness :
    (∀ i, i < 2 → op_c2 i = PyOutcome.raise (PyErr.operational "database is locked") ∧
      isLockedErr (PyErr.operational "database is locked") = true) ∧
    with_db_retry op_c2 3 1 =
      { result := PyOutcome.ok 42, attempts := 3, sleeps := [1, 2], closes := 2 } := by
  refine ⟨fun i hi => ⟨by simp [op_c2, hi], by decide⟩, ?_⟩
  have h := (claim2_retry op_c2 1).2.1 2 42
    (fun _ => PyErr.operational "database is locked") (by norm_num)
    (by intro i hi
        constructor
        · simp [op_c2, hi]
        · show isLockedErr (PyErr.operational "database is locked") = true
          decide) (by rfl)
  simpa [List.range_succ] using h

/-- A candidate event that passes validation but carries no timestamp: the
NOT NULL event insert raises IntegrityError. -/
def activity_missing_ts : RawActivity :=
  { user := some { uri := some "spotify:user:bob", name := some "Bob",
                   imageUrl := none, image_url := none }
    track := some { uri := some "spotify:track:9", name := some "Song B",
                    imageUrl := none, image_url := none,
                    album := none, artist := none, context := none }
    timestamp := none }

/-- A fully valid candidate event for carol. -/
def activity_good : RawActivity :=
  { user := some { uri := some "spotify:user:carol", name := some "Carol",
                   imageUrl := none, image_url := none }
    track := some { uri := some "spotify:track:10", name := some "Song C",
                    imageUrl := none, image_url := none,
                    album := none, artist := none, context := none }
    timestamp := some 3000 }

/-- C7 counterexample: in a tick whose first candidate raises during
ingestion, the second (fully valid) candidate is never ingested — its stream
is not even created — although it stores fine on its own; the failure aborts
the remaining candidates of the tick instead of continuing with them. -/
theorem claim7_counterexample :
    (store_activity 0 activity_missing_ts db_init).1 =
      StoreOutcome.raised (PyErr.integrity "NOT NULL constraint failed") ∧
    (store_activity 0 activity_good db_init).1 = StoreOutcome.stored ∧
    alookup (collection_tick 0
        [LoopItem.dict activity_missing_ts, LoopItem.dict activity_good] db_init).streams
      (tableNameOf "spotify:user:carol") = none := by
  refine ⟨rfl, rfl, rfl⟩

/-- C7 (amended): a candidate that raises during ingestion is caught at the
tick level, not the candidate level: the remaining candidates of that tick
are skipped, but the exception never escapes the tick — the loop continues
with the next tick from the state the failure left, and non-dict candidates
are logged and skipped without aborting anything. -/
theorem claim7_amended_tick (now : Int) (a : RawActivity) (rest : List LoopItem)
    (db db1 : Db) (e : PyErr) (items2 : List LoopItem)
    (h : store_activity now a db = (StoreOutcome.raised e, db1)) :
    collection_tick now (LoopItem.dict a :: rest) db = db1 ∧
    run_collection_loop now [LoopItem.dict a :: rest, items2] db =
      collection_tick now items2 db1 ∧
    (∀ (s : String) (l : List LoopItem) (db0 : Db),
      ingest_batch now (LoopItem.nondict s :: l) db0 = ingest_batch now l db0) := by
  have hb : ingest_batch now (LoopItem.dict a :: rest) db = (db1, some e) := by
    simp [ingest_batch, h]
  refine ⟨?_, ?_, fun s l db0 => rfl⟩
  · simp [collection_tick, hb]
  · simp [run_collection_loop, collection_tick, hb]

/-- Witness for C7: the concrete two-candidate tick followed by a second
tick; the loop survives the failure and the second tick still runs (and does
ingest carol's event). -/
theorem claim7_witness :
    collection_tick 0 [LoopItem.dict activity_missing_ts, LoopItem.dict activity_good]
      db_init = (store_activity 0 activity_missing_ts db_init).2 ∧
    run_collection_loop 0
        [[LoopItem.dict activity_missing_ts, LoopItem.dict activity_good],
         [LoopItem.dict activity_good]] db_init =
      collection_tick 0 [LoopItem.dict activity_good]
        (store_activity 0 activity_missing_ts db_init).2 ∧
    (alookup (run_collection_loop 0
        [[LoopItem.dict activity_missing_ts, LoopItem.dict activity_good],
         [LoopItem.dict activity_good]] db_init).streams
      (tableNameOf "spotify:user:carol")).isSome = true := by
  have h := claim7_amended_tick 0 activity_missing_ts [LoopItem.dict activity_good]
    db_init (store_activity 0 activity_missing_ts db_init).2
    (PyErr.integrity "NOT NULL constraint failed") [LoopItem.dict activity_good] (by rfl)
  exact ⟨h.1, h.2.1, by rfl⟩

/-- C9: querying the history of a listener whose stream was never created
raises a storage error instead of returning an empty result, while the
all-listener queries return an empty result on an empty stream registry. -/
theorem claim9_queries (db : Db) (u : String) :
    (alookup db.streams (tableNameOf u) = none →
      ∃ e, get_user_activity db u none none = Except.error e) ∧
    (db.user_tables = some ([] : List (String × RegEntry)) →
      get_all_user_activities db none = Except.ok [] ∧
      get_all_time_activity db = Except.ok []) := by
  constructor
  · intro hs
    refine ⟨PyErr.operational ("no such table: " ++ tableNameOf u), ?_⟩
    unfold get_user_activity
    rw [get_user_table_name_ok]
    simp [hs]
  · intro hr
    constructor
    · unfold get_all_user_activities
      rw [hr]
      simp
    · unfold get_all_time_activity
      rw [hr]
      simp

/-- Witness for C9: on a freshly initialized store, dave's history query
errors while both all-listener queries return the empty result. -/
theorem claim9_witness :
    alookup db_init.streams (tableNameOf "spotify:user:dave") = none ∧
    (∃ e, get_user_activity db_init "spotify:user:dave" none none = Except.error e) ∧
    get_all_user_activities db_init none = Except.ok [] ∧
    get_all_time_activity db_init = Except.ok [] := by
  have h := claim9_queries db_init "spotify:user:dave"
  exact ⟨rfl, h.1 rfl, (h.2 rfl).1, (h.2 rfl).2⟩

theorem mem_aupsert {β : Type} {l : List (String × β)} {k : String} {v : β}
    {p : String × β} (h : p ∈ aupsert l k v) : p = (k, v) ∨ p ∈ l := by
  induction l with
  | nil => simpa [aupsert] using h
  | cons q rest ih =>
      obtain ⟨a, b⟩ := q
      by_cases hp : a = k
      · subst hp
        rw [aupsert_cons_self] at h
        rcases List.mem_cons.mp h with h1 | h2
        · left; exact h1
        · right; exact List.mem_cons_of_mem _ h2
      · rw [aupsert_cons_ne a k b v rest hp] at h
        rcases List.mem_cons.mp h with h1 | h2
        · right; subst h1; exact List.mem_cons_self _ _
        · rcases ih h2 with h3 | h4
          · left; exact h3
          · right; exact List.mem_cons_of_mem _ h4

theorem alookup_aupsert_isSome {β : Type} (l : List (String × β)) (k k' : String) (v : β)
    (h : (alookup l k').isSome = true) : (alookup (aupsert l k v) k').isSome = true := by
  by_cases hk : k' = k
  · subst hk
    rw [alookup_aupsert_self]
    rfl
  · rw [alookup_aupsert_ne l k k' v hk]
    exact h

theorem repair_cons (now : Int) (u0 : String) (e0 : RegEntry)
    (l' : List (String × RegEntry)) (db : Db) :
    repair_user_tables now ((u0, e0) :: l') db =
      if (alookup db.streams e0.table_name).isSome = true
      then repair_user_tables now l' db
      else
        match create_user_table now u0 db with
        | (Except.ok _, db1) => repair_user_tables now l' db1
        | (Except.error e, _) => Except.error e := rfl

theorem repair_spec (now : Int) :
    ∀ (l : List (String × RegEntry)) (db : Db) (reg : List (String × RegEntry)),
    db.user_tables = some reg →
    (∀ p ∈ l, p.2.table_name = tableNameOf p.1) →
    (∀ p ∈ reg, p.2.table_name = tableNameOf p.1) →
    ∃ db2 reg2, repair_user_tables now l db = Except.ok db2 ∧
      db2.user_tables = some reg2 ∧
      (∀ p ∈ reg2, p.2.table_name = tableNameOf p.1) ∧
      (∀ u, (alookup reg u).isSome = true → (alookup reg2 u).isSome = true) ∧
      (∀ n v, alookup db.streams n = some v → alookup db2.streams n = some v) ∧
      (∀ p ∈ l, (alookup db2.streams p.2.table_name).isSome = true) ∧
      (∀ n, alookup db.streams n = none →
        alookup db2.streams n = none ∨ alookup db2.streams n = some []) ∧
      db2.users = db.users ∧ db2.tracks = db.tracks := by
  intro l
  induction l with
  | nil =>
      intro db reg hr hwl hwr
      exact ⟨db, reg, rfl, hr, hwr, fun u h => h, fun n v h => h, fun p hp => absurd hp
        (List.not_mem_nil p), fun n h => Or.inl h, rfl, rfl⟩
  | cons p l' ih =>
      intro db reg hr hwl hwr
      obtain ⟨u0, e0⟩ := p
      have hw0 : e0.table_name = tableNameOf u0 := hwl (u0, e0) (List.mem_cons_self _ _)
      rcases hstream : alookup db.streams e0.table_name with _ | v0
      · -- the recorded table is missing: re-provision via create_user_table
        have hmiss : alookup db.streams (tableNameOf u0) = none := by
          rw [← hw0]; exact hstream
        have hct := create_user_table_miss now u0 db reg hmiss hr
        set db1 : Db :=
          { db with
              streams := db.streams ++ [(tableNameOf u0, [])]
              user_tables := some (aupsert reg u0
                { table_name := tableNameOf u0, created_at := now }) } with hdb1
        set reg1 := aupsert reg u0 { table_name := tableNameOf u0, created_at := now }
          with hreg1
        have hstep : repair_user_tables now ((u0, e0) :: l') db =
            repair_user_tables now l' db1 := by
          rw [repair_cons, hstream]
          simp only [Option.isSome_none, Bool.false_eq_true, if_false]
          rw [hct]
        have hwr1 : ∀ q ∈ reg1, q.2.table_name = tableNameOf q.1 := by
          intro q hq
          rcases mem_aupsert hq with h1 | h2
          · subst h1; rfl
          · exact hwr q h2
        obtain ⟨db2, reg2, ho, hreg2, hwr2, hmono, hpres, hl', hnone, husr, htrk⟩ :=
          ih db1 reg1 rfl (fun q hq => hwl q (List.mem_cons_of_mem _ hq)) hwr1
        have hemp : alookup db1.streams (tableNameOf u0) = some [] :=
          alookup_append_singleton_self db.streams _ _ hmiss
        refine ⟨db2, reg2, by rw [hstep]; exact ho, hreg2, hwr2, ?_, ?_, ?_, ?_, husr, htrk⟩
        · intro u hu
          exact hmono u (alookup_aupsert_isSome reg u0 u _ hu)
        · intro n v hv
          exact hpres n v (alookup_append_of_some db.streams _ n v hv)
        · intro q hq
          rcases List.mem_cons.mp hq with h1 | h2
          · cases h1
            show (alookup db2.streams e0.table_name).isSome = true
            rw [hw0, hpres (tableNameOf u0) [] hemp]
            rfl
          · exact hl' q h2
        · intro n hn
          by_cases hne : n = tableNameOf u0
          · subst hne
            right
            exact hpres _ [] hemp
          · have hx : alookup db1.streams n = none := by
              show alookup (db.streams ++ [(tableNameOf u0, [])]) n = none
              rw [alookup_append_singleton_ne db.streams _ n _ hne]
              exact hn
            exact hnone n hx
      · -- the recorded table exists: nothing to do for this entry
        have hstep : repair_user_tables now ((u0, e0) :: l') db =
            repair_user_tables now l' db := by
          rw [repair_cons, hstream]
          rfl
        obtain ⟨db2, reg2, ho, hreg2, hwr2, hmono, hpres, hl', hnone, husr, htrk⟩ :=
          ih db reg hr (fun q hq => hwl q (List.mem_cons_of_mem _ hq)) hwr
        refine ⟨db2, reg2, by rw [hstep]; exact ho, hreg2, hwr2, hmono, hpres, ?_,
          hnone, husr, htrk⟩
        intro q hq
        rcases List.mem_cons.mp hq with h1 | h2
        · cases h1
          show (alookup db2.streams e0.table_name).isSome = true
          rw [hpres e0.table_name v0 hstream]
          rfl
        · exact hl' q h2

theorem coreTables_all_present (db : Db) (h : ¬coreTablesPresent db < 3) :
    db.users.isSome = true ∧ db.tracks.isSome = true ∧ db.user_tables.isSome = true := by
  have hb : ∀ b : Bool, (if b = true then (1 : Nat) else 0) ≤ 1 := by
    intro b; cases b <;> simp
  have h3 : 3 ≤ coreTablesPresent db := Nat.le_of_not_lt h
  unfold coreTablesPresent at h3
  have ht := hb db.tracks.isSome
  have hr := hb db.user_tables.isSome
  have hu := hb db.users.isSome
  refine ⟨?_, ?_, ?_⟩
  · cases hx : db.users.isSome
    · rw [hx] at h3; simp at h3; omega
    · rfl
  · cases hx : db.tracks.isSome
    · rw [hx] at h3; simp at h3; omega
    · rfl
  · cases hx : db.user_tables.isSome
    · rw [hx] at h3; simp at h3; omega
    · rfl

/-- C8: verify_database_structure reinitializes the full baseline schema when
any of the three core tables is missing (afterwards all three exist); every
registry entry whose backing stream table is missing gets an empty stream
re-provisioned from the recorded listener identifier, with the entry still
present under the same recorded handle (and entries whose stream exists keep
it untouched); and an unexpected storage error raised during verification
propagates to the caller. -/
theorem claim8_verify (now : Int) (db : Db) (e : PyErr)
    (hwf : ∀ p ∈ db.user_tables.getD [], p.2.table_name = tableNameOf p.1) :
    (∃ db2, verify_database_structure now none db = Except.ok db2 ∧
      db2.users.isSome = true ∧ db2.tracks.isSome = true ∧
      db2.user_tables.isSome = true ∧
      (∀ p ∈ db.user_tables.getD [],
        (alookup db.streams p.2.table_name = none →
          alookup db2.streams p.2.table_name = some []) ∧
        (∀ evs, alookup db.streams p.2.table_name = some evs →
          alookup db2.streams p.2.table_name = some evs)) ∧
      (∀ p ∈ db.user_tables.getD [], ∃ e2,
        alookup (db2.user_tables.getD []) p.1 = some e2 ∧
        e2.table_name = p.2.table_name)) ∧
    verify_database_structure now (some e) db = Except.error e := by
  refine ⟨?_, rfl⟩
  set db1 : Db := if coreTablesPresent db < 3 then init_database db else db with hdb1
  have h1u : db1.user_tables = some (db.user_tables.getD []) := by
    rw [hdb1]
    by_cases hcore : coreTablesPresent db < 3
    · rw [if_pos hcore]; rfl
    · rw [if_neg hcore]
      obtain ⟨-, -, hx⟩ := coreTables_all_present db hcore
      obtain ⟨reg, hreg⟩ := Option.isSome_iff_exists.mp hx
      rw [hreg]; rfl
  have h1s : db1.streams = db.streams := by
    rw [hdb1]
    by_cases hcore : coreTablesPresent db < 3
    · rw [if_pos hcore]; rfl
    · rw [if_neg hcore]
  have h1users : db1.users.isSome = true := by
    rw [hdb1]
    by_cases hcore : coreTablesPresent db < 3
    · rw [if_pos hcore]; rfl
    · rw [if_neg hcore]; exact (coreTables_all_present db hcore).1
  have h1tracks : db1.tracks.isSome = true := by
    rw [hdb1]
    by_cases hcore : coreTablesPresent db < 3
    · rw [if_pos hcore]; rfl
    · rw [if_neg hcore]; exact (coreTables_all_present db hcore).2.1
  have hveq : verify_database_structure now none db =
      repair_user_tables now (db.user_tables.getD []) db1 := by
    show (match db1.user_tables with
      | none => Except.error (PyErr.operational "no such table: user_tables")
      | some reg => repair_user_tables now reg db1) = _
    rw [h1u]
  obtain ⟨db2, reg2, ho, hreg2, hwr2, hmono, hpres, hl, hnone, husr, htrk⟩ :=
    repair_spec now (db.user_tables.getD []) db1 (db.user_tables.getD []) h1u hwf hwf
  rw [h1s] at hpres hnone
  refine ⟨db2, by rw [hveq]; exact ho, ?_, ?_, ?_, ?_, ?_⟩
  · rw [husr]; exact h1users
  · rw [htrk]; exact h1tracks
  · rw [hreg2]; rfl
  · intro p hp
    refine ⟨?_, fun evs hevs => hpres p.2.table_name evs hevs⟩
    intro hmissing
    rcases hnone p.2.table_name hmissing with hx | hx
    · exfalso
      have := hl p hp
      rw [hx] at this
      simp at this
    · exact hx
  · intro p hp
    have hsome : (alookup reg2 p.1).isSome = true :=
      hmono p.1 (alookup_isSome_of_mem (by exact (Prod.mk.eta (p := p)) ▸ hp))
    obtain ⟨e2, he2⟩ := Option.isSome_iff_exists.mp hsome
    refine ⟨e2, by rw [hreg2]; simpa using he2, ?_⟩
    have h2 := hwr2 (p.1, e2) (alookup_mem he2)
    have h1 := hwf p hp
    rw [h2, h1]

/-- A database with a missing users table and a registry entry for frank
whose backing stream table was dropped out-of-band. -/
def db_c8 : Db :=
  { users := none, tracks := some [],
    user_tables := some [("spotify:user:frank",
      { table_name := tableNameOf "spotify:user:frank", created_at := 2 })],
    streams := [] }

/-- Witness for C8 at a concrete corrupted database: verification succeeds,
reinitializes the missing core table, re-provisions frank's empty stream
keeping the registry handle, and an injected storage error propagates. -/
theorem claim8_witness :
    (∃ db2, verify_database_structure 11 none db_c8 = Except.ok db2 ∧
      db2.users.isSome = true ∧ db2.tracks.isSome = true ∧
      db2.user_tables.isSome = true ∧
      (∀ p ∈ db_c8.user_tables.getD [],
        (alookup db_c8.streams p.2.table_name = none →
          alookup db2.streams p.2.table_name = some []) ∧
        (∀ evs, alookup db_c8.streams p.2.table_name = some evs →
          alookup db2.streams p.2.table_name = some evs)) ∧
      (∀ p ∈ db_c8.user_tables.getD [], ∃ e2,
        alookup (db2.user_tables.getD []) p.1 = some e2 ∧
        e2.table_name = p.2.table_name)) ∧
    verify_database_structure 11 (some (PyErr.operational "disk I/O error")) db_c8 =
      Except.error (PyErr.operational "disk I/O error") :=
  claim8_verify 11 db_c8 (PyErr.operational "disk I/O error")
    (by intro p hp
        simp only [db_c8, Option.getD_some, List.mem_singleton] at hp
        subst hp
        rfl)

end FriendTracker
